import Mathlib

/-!
Shallow embedding of the GraphQL blog API resolvers (src/resolvers.rs) of
api.takurinton.dev: data model, SQL query semantics over in-memory tables,
the data access layer with explicit failure flags, and the resolver layer
(`getPost`, `getPosts`, `ping`), together with theorems settling the
specification claims.
-/

deriving instance DecidableEq for Except

namespace Blog

/-- Error payload of the transport layer: message plus structured extension
fields, mirroring async_graphql FieldError. `FieldError::new(msg)` carries no
extensions. -/
structure FieldError where
  message : String
  extensions : List (String × String)
deriving DecidableEq, Repr

def FieldError.new (msg : String) : FieldError := ⟨msg, []⟩

/-- The error taxonomy of resolvers.rs (enum BlogError). -/
inductive BlogError where
  | NotFoundPost
  | NotFoundPosts
  | ServerError : String → BlogError
deriving DecidableEq, Repr

/-- Display messages from the thiserror attributes on BlogError. -/
def BlogError.message : BlogError → String
  | .NotFoundPost => "投稿が存在しません"
  | .NotFoundPosts => "投稿が存在しません"
  | .ServerError _ => "ServerError"

/-- Conversion `BlogError -> FieldError` via `.into()`: the From impl of
async_graphql records the Display message and attaches no extensions. -/
def BlogError.intoFieldError (e : BlogError) : FieldError :=
  FieldError.new e.message

/-- The ErrorExtensions impl for BlogError (resolvers.rs lines 64 to 72):
extend_with sets `code = NOT_FOUND` for the two not-found variants and
`reason = <message>` for server errors. -/
def BlogError.extend (e : BlogError) : FieldError :=
  match e with
  | .NotFoundPost => ⟨BlogError.NotFoundPost.message, [("code", "NOT_FOUND")]⟩
  | .NotFoundPosts => ⟨BlogError.NotFoundPosts.message, [("code", "NOT_FOUND")]⟩
  | .ServerError reason => ⟨(BlogError.ServerError reason).message, [("reason", reason)]⟩

/-- A row of the blogapp_post table. The `open` column is a small integer
flag (i8 in the Rust struct). -/
structure PostRow where
  id : Int
  title : String
  category_id : Int
  contents : Option String
  pub_date : Int
  «open» : Int
deriving DecidableEq, Repr

/-- A row of the blogapp_category table. -/
structure CategoryRow where
  id : Int
  name : String
deriving DecidableEq, Repr

/-- The database visible to the resolvers. -/
structure Database where
  posts : List PostRow
  categories : List CategoryRow
deriving DecidableEq, Repr

/-- The GraphQL Post object (struct Post in resolvers.rs). -/
structure Post where
  id : Int
  title : String
  category : Option String
  contents : Option String
  pub_date : Int
  «open» : Int
deriving DecidableEq, Repr

/-- The GraphQL Posts page object (struct Posts in resolvers.rs). -/
structure Posts where
  current : Int
  next : Option Int
  prev : Option Int
  category : String
  page_size : Int
  results : List Post
deriving DecidableEq, Repr

/-- MySQL LEFT(s, 200): the first 200 characters of a string. -/
def left200 (s : String) : String := ⟨s.data.take 200⟩

/-- INNER JOIN pairing of one post row with every category row matching its
category_id (the ON clause of both SELECTs). -/
def postCategories (cats : List CategoryRow) (pr : PostRow) :
    List (PostRow × CategoryRow) :=
  (cats.filter (fun c => pr.category_id == c.id)).map (fun c => (pr, c))

/-- blogapp_post INNER JOIN blogapp_category ON category_id = id. -/
def joinRows (db : Database) : List (PostRow × CategoryRow) :=
  db.posts.flatMap (postCategories db.categories)

/-- Row of the single-post SELECT: full contents, category name from the
joined row. -/
def rowToPost (pc : PostRow × CategoryRow) : Post :=
  { id := pc.1.id, title := pc.1.title, category := some pc.2.name,
    contents := pc.1.contents, pub_date := pc.1.pub_date, «open» := pc.1.«open» }

/-- Row of the listing SELECT: contents passed through left(contents, 200). -/
def rowToPostTruncated (pc : PostRow × CategoryRow) : Post :=
  { id := pc.1.id, title := pc.1.title, category := some pc.2.name,
    contents := pc.1.contents.map left200, pub_date := pc.1.pub_date,
    «open» := pc.1.«open» }

/-- Insertion step for ORDER BY pub_date desc. -/
def insertDesc (a : PostRow × CategoryRow) :
    List (PostRow × CategoryRow) → List (PostRow × CategoryRow)
  | [] => [a]
  | b :: bs => if b.1.pub_date ≤ a.1.pub_date then a :: b :: bs
               else b :: insertDesc a bs

/-- ORDER BY blogapp_post.pub_date desc as an insertion sort. -/
def sortDesc : List (PostRow × CategoryRow) → List (PostRow × CategoryRow)
  | [] => []
  | a :: l => insertDesc a (sortDesc l)

/-- Result rows of the single-post query (resolvers.rs lines 232 to 253):
join, then WHERE blogapp_post.id = ?. No condition on the open flag. -/
def get_post_query (db : Database) (id : Int) : List Post :=
  ((joinRows db).filter (fun pc => pc.1.id == id)).map rowToPost

/-- Offset computed by get_posts (resolvers.rs line 268):
`if page == 0 { 0 } else { 5 * (page - 1) }`. -/
def get_posts_offset (page : Int) : Int :=
  if page == 0 then 0 else 5 * (page - 1)

/-- LIMIT clause of the listing query: fixed at 5. -/
def get_posts_limit : Int := 5

/-- WHERE clause of the listing query: `open = true` plus the interpolated
category filter (empty category string means no filter). -/
def listingFilter (category : String) (pc : PostRow × CategoryRow) : Bool :=
  pc.1.«open» == 1 && (category == "" || pc.2.name == category)

/-- Result rows of the listing query (resolvers.rs lines 275 to 299):
join, WHERE open = true AND optional category equality, ORDER BY pub_date
desc, OFFSET, LIMIT 5, contents truncated by left(contents, 200). -/
def get_posts_query (db : Database) (page : Int) (category : String) :
    List Post :=
  ((((sortDesc ((joinRows db).filter (listingFilter category))).drop
      (get_posts_offset page).toNat).take get_posts_limit.toNat).map
    rowToPostTruncated)

/-- Count of open posts: `SELECT count(*) FROM blogapp_post where open = true`
(no join). -/
def countOpen (db : Database) : Int :=
  ((db.posts.filter (fun pr => pr.«open» == 1)).length : Int)

/-- Failure environment of one request: the database contents plus flags
telling which of the per-call connection attempts and query executions fail.
Each data access function opens its own connection, so each has its own
flags. -/
structure DbEnv where
  db : Database
  countPoolFails : Bool
  countQueryFails : Bool
  getPostPoolFails : Bool
  getPostQueryFails : Bool
  getPostsPoolFails : Bool
  getPostsQueryFails : Bool
deriving DecidableEq, Repr

/-- count (resolvers.rs lines 205 to 223): connection failure and query
failure both surface as ServerError; on success the count of open posts. -/
def count (env : DbEnv) : Except BlogError Int :=
  if env.countPoolFails then
    .error (.ServerError "Database Error: connection failed")
  else if env.countQueryFails then
    .error (.ServerError "unknown error")
  else
    .ok (countOpen env.db)

/-- get_post (resolvers.rs lines 226 to 259): connection failure is a
ServerError; fetch_one returning no row or failing is NotFoundPost (the two
are indistinguishable to the caller); otherwise the first matching row. -/
def get_post (env : DbEnv) (id : Int) : Except BlogError Post :=
  if env.getPostPoolFails then
    .error (.ServerError "Database Error: connection failed")
  else if env.getPostQueryFails then
    .error .NotFoundPost
  else
    match get_post_query env.db id with
    | [] => .error .NotFoundPost
    | p :: _ => .ok p

/-- get_posts (resolvers.rs lines 262 to 314): connection failure is a
ServerError; fetch_all failing is ServerError "unknown error"; otherwise the
page of rows (an empty list is not an error). -/
def get_posts (env : DbEnv) (page : Int) (category : String) :
    Except BlogError (List Post) :=
  if env.getPostsPoolFails then
    .error (.ServerError "Database Error: connection failed")
  else if env.getPostsQueryFails then
    .error (.ServerError "unknown error")
  else
    .ok (get_posts_query env.db page category)

/-- The ping resolver. -/
structure Ping where
  status : String
  code : Int
deriving DecidableEq, Repr

def ping : Ping := { status := "ok", code := 200 }

/-- The getPost resolver (resolvers.rs lines 87 to 107): passes the post
through unchanged; errors are rebuilt as plain FieldError values with only a
message. -/
def getPost (env : DbEnv) (id : Int) : Except FieldError Post :=
  match get_post env id with
  | .ok post => .ok post
  | .error err =>
    .error (match err with
      | .NotFoundPost => FieldError.new "投稿が存在しません"
      | .ServerError message => FieldError.new message
      | _ => FieldError.new "unknown error")

/-- The getPosts resolver (resolvers.rs lines 110 to 171): normalizes page 0
to 1, requires a nonzero count, fetches the page, rejects pages beyond
count / 5 + 1, and assembles the Posts record. -/
def getPosts (env : DbEnv) (page : Int) (category : String) :
    Except FieldError Posts :=
  let page := if page == 0 then 1 else page
  let categoryForResult := category
  match count env with
  | .error err =>
    .error (match err with
      | .ServerError message => FieldError.new message
      | _ => FieldError.new "unknown error")
  | .ok c =>
    if c == 0 then .error BlogError.NotFoundPosts.intoFieldError
    else
      match get_posts env page category with
      | .error err =>
        .error (match err with
          | .NotFoundPosts => FieldError.new "投稿がありません"
          | .ServerError message => FieldError.new message
          | _ => FieldError.new "unknown error")
      | .ok results =>
        let page_size := c / 5 + 1
        if page > page_size then .error BlogError.NotFoundPosts.intoFieldError
        else
          let next := if page == page_size then some page_size
                      else some (page + 1)
          let prev := if page == 0 then some 0 else some (page - 1)
          .ok { current := page, next := next, prev := prev,
                category := categoryForResult, page_size := page_size,
                results := results }

/-! Concrete sample data used for witnesses and counterexamples. -/

def emptyDb : Database := ⟨[], []⟩

/-- Environment in which every connection and query succeeds. -/
def okEnv (db : Database) : DbEnv := ⟨db, false, false, false, false, false, false⟩

/-- Environment in which the count query (only) fails. -/
def envCountQueryFail : DbEnv := ⟨emptyDb, false, true, false, false, false, false⟩

def techCategory : CategoryRow := ⟨1, "tech"⟩

def samplePost : PostRow :=
  { id := 1, title := "hello", category_id := 1, contents := some "body",
    pub_date := 10, «open» := 1 }

/-- A post whose open flag is zero (not publicly visible). -/
def closedPost : PostRow :=
  { id := 2, title := "draft", category_id := 1, contents := some "secret",
    pub_date := 20, «open» := 0 }

def sampleDb : Database := ⟨[samplePost, closedPost], [techCategory]⟩

/-- A database with six open posts, so the page count is 6 / 5 + 1 = 2. -/
def sixPostDb : Database :=
  ⟨(List.range 6).map (fun n =>
      { id := (n : Int), title := "p", category_id := 1,
        contents := some "body", pub_date := (n : Int), «open» := 1 }),
    [techCategory]⟩

/-- The post as it appears inside a listing (contents through left200). -/
def listedPost : Post := rowToPostTruncated (samplePost, techCategory)

/-- The Posts page produced by getPosts (okEnv sampleDb) 1 "". -/
def resultW : Posts :=
  { current := 1, next := some 1, prev := some 0, category := "",
    page_size := 1, results := [listedPost] }

/-- The same database with every open flag rewritten by f: used to state
that the single-post lookup does not read the open column. -/
def withOpen (db : Database) (f : PostRow → Int) : Database :=
  ⟨db.posts.map (fun pr => { pr with «open» := f pr }), db.categories⟩

/-- A post row whose category_id matches no category row. -/
def uncatPost : PostRow :=
  { id := 3, title := "stray", category_id := 99, contents := none,
    pub_date := 30, «open» := 1 }

/-! Theorems settling the claims. -/

/-- C1 counterexample: when the count query fails, count does not return 0;
it returns a ServerError. The claim that count failures are never surfaced
as errors is false on the code. -/
theorem C1_counterexample :
    count envCountQueryFail = .error (.ServerError "unknown error") ∧
    count envCountQueryFail ≠ .ok 0 := by decide

/-- C1 amended: for every execution of count in which the connection or the
SQL query fails, count surfaces the failure as a ServerError (connection
failures as "Database Error: connection failed", query failures as
"unknown error"); failures are never converted into a count of 0. -/
theorem C1_count_failure_is_error (env : DbEnv)
    (h : env.countPoolFails = true ∨ env.countQueryFails = true) :
    count env = .error (.ServerError "Database Error: connection failed") ∨
    count env = .error (.ServerError "unknown error") := by
  rcases h with h | h
  · exact Or.inl (by simp [count, h])
  · cases hp : env.countPoolFails
    · exact Or.inr (by simp [count, h, hp])
    · exact Or.inl (by simp [count, hp])

/-- C1 witness: the amended statement at the concrete failing environment. -/
theorem C1_witness :
    count envCountQueryFail =
      .error (.ServerError "Database Error: connection failed") ∨
    count envCountQueryFail = .error (.ServerError "unknown error") :=
  C1_count_failure_is_error envCountQueryFail (Or.inr rfl)

/-- C2: whenever the count of open posts comes back 0, getPosts fails with
the NotFound error, for every requested page and every category string. -/
theorem C2_zero_count_not_found (env : DbEnv) (page : Int) (category : String)
    (h : count env = .ok 0) :
    getPosts env page category = .error BlogError.NotFoundPosts.intoFieldError := by
  simp [getPosts, h]

/-- C2 witness: concrete empty database, page 3, category tech. -/
theorem C2_witness :
    getPosts (okEnv emptyDb) 3 "tech" =
      .error BlogError.NotFoundPosts.intoFieldError :=
  C2_zero_count_not_found (okEnv emptyDb) 3 "tech" (by decide)

/-- C4: getPosts with page 0 behaves identically to getPosts with page 1,
for every environment and every category string. -/
theorem C4_page_zero_is_page_one (env : DbEnv) (category : String) :
    getPosts env 0 category = getPosts env 1 category := rfl

/-- C6 counterexample: for page -1 the computed offset is -10, not 0; the
claim that every page at most 0 gets offset 0 is false on the code, which
special-cases only page equal to 0. -/
theorem C6_counterexample :
    get_posts_offset (-1) = -10 ∧ get_posts_offset (-1) ≠ 0 := by decide

/-- C6 amended: the fetch-posts-page operation applies an offset of
5 * (page - 1) for every page other than 0 (so negative pages produce
negative offsets, not 0), an offset of 0 exactly when page equals 0, and a
fixed limit of 5, so the page of rows never holds more than 5 entries. -/
theorem C6_offset_and_limit (db : Database) (page : Int) (category : String)
    (h : page ≠ 0) :
    get_posts_offset page = 5 * (page - 1) ∧
    get_posts_offset 0 = 0 ∧
    (get_posts_query db page category).length ≤ 5 := by
  refine ⟨by simp [get_posts_offset, h], rfl, ?_⟩
  unfold get_posts_query
  simp [get_posts_limit, List.length_take]

/-- C6 witness: the amended statement at page -1 on the empty database. -/
theorem C6_witness :
    get_posts_offset (-1) = 5 * ((-1) - 1) ∧
    get_posts_offset 0 = 0 ∧
    (get_posts_query emptyDb (-1) "").length ≤ 5 :=
  C6_offset_and_limit emptyDb (-1) "" (by decide)

/-! Helper lemmas about the query semantics. -/

theorem mem_insertDesc {x a : PostRow × CategoryRow}
    {l : List (PostRow × CategoryRow)} :
    x ∈ insertDesc a l ↔ x = a ∨ x ∈ l := by
  induction l with
  | nil => simp [insertDesc]
  | cons b bs ih =>
    unfold insertDesc
    split
    · simp
    · simp [ih]
      tauto

theorem mem_sortDesc {x : PostRow × CategoryRow}
    {l : List (PostRow × CategoryRow)} :
    x ∈ sortDesc l ↔ x ∈ l := by
  induction l with
  | nil => simp [sortDesc]
  | cons a l ih => simp [sortDesc, mem_insertDesc, ih]

/-- Every element of a listing-query result comes from a joined row that
passes the WHERE clause, with contents truncated. -/
theorem exists_of_mem_get_posts_query {db : Database} {page : Int}
    {category : String} {p : Post}
    (hp : p ∈ get_posts_query db page category) :
    ∃ pc, pc ∈ joinRows db ∧ listingFilter category pc = true ∧
      p = rowToPostTruncated pc := by
  unfold get_posts_query at hp
  obtain ⟨pc, hpc, hmap⟩ := List.mem_map.1 hp
  have h1 : pc ∈ sortDesc ((joinRows db).filter (listingFilter category)) :=
    List.mem_of_mem_drop (List.mem_of_mem_take hpc)
  have h2 : pc ∈ (joinRows db).filter (listingFilter category) :=
    mem_sortDesc.1 h1
  exact ⟨pc, (List.mem_filter.1 h2).1, (List.mem_filter.1 h2).2, hmap.symm⟩

/-- Every element of a single-post-query result comes from a joined row
whose post id matches, with contents untouched. -/
theorem exists_of_mem_get_post_query {db : Database} {id : Int} {q : Post}
    (hq : q ∈ get_post_query db id) :
    ∃ pc, pc ∈ joinRows db ∧ pc.1.id = id ∧ q = rowToPost pc := by
  unfold get_post_query at hq
  obtain ⟨pc, hpc, hmap⟩ := List.mem_map.1 hq
  refine ⟨pc, (List.mem_filter.1 hpc).1, ?_, hmap.symm⟩
  have := (List.mem_filter.1 hpc).2
  simpa using this

/-- The getPost resolver passes a successful fetch through unchanged. -/
theorem getPost_ok_iff {env : DbEnv} {id : Int} {q : Post} :
    getPost env id = .ok q ↔ get_post env id = .ok q := by
  unfold getPost
  cases h : get_post env id <;> simp

/-- A successful get_post returns the head of the single-post query. -/
theorem get_post_ok_mem {env : DbEnv} {id : Int} {q : Post}
    (h : get_post env id = .ok q) : q ∈ get_post_query env.db id := by
  unfold get_post at h
  split at h
  · simp at h
  · split at h
    · simp at h
    · split at h
      · simp at h
      · next p _ heq =>
        simp only [Except.ok.injEq] at h
        rw [← h, heq]
        exact List.mem_cons_self ..

/-- A successful count is the open-post count, hence nonnegative. -/
theorem count_ok_shape {env : DbEnv} {c : Int} (h : count env = .ok c) :
    c = countOpen env.db ∧ 0 ≤ c := by
  unfold count at h
  split at h
  · simp at h
  · split at h
    · simp at h
    · simp only [Except.ok.injEq] at h
      refine ⟨h.symm, ?_⟩
      rw [← h]
      exact Int.natCast_nonneg _

/-- Shape of every successful getPosts result: the count succeeded and was
nonzero, the page fetch succeeded, the requested page (after normalizing 0
to 1) is within the page count, and the Posts record has exactly the fields
assembled in resolvers.rs lines 153 to 170. -/
theorem getPosts_ok_shape {env : DbEnv} {page : Int} {category : String}
    {P : Posts} (h : getPosts env page category = .ok P) :
    ∃ c : Int, count env = .ok c ∧ c ≠ 0 ∧
      ¬((if page == 0 then (1 : Int) else page) > c / 5 + 1) ∧
      P = { current := if page == 0 then 1 else page,
            next := if (if page == 0 then (1 : Int) else page) == c / 5 + 1
                    then some (c / 5 + 1)
                    else some ((if page == 0 then (1 : Int) else page) + 1),
            prev := if (if page == 0 then (1 : Int) else page) == 0
                    then some 0
                    else some ((if page == 0 then (1 : Int) else page) - 1),
            category := category,
            page_size := c / 5 + 1,
            results :=
              get_posts_query env.db (if page == 0 then 1 else page)
                category } := by
  simp only [getPosts] at h
  set pn : Int := if page == 0 then (1 : Int) else page with hpn
  split at h
  · simp at h
  · next c hc =>
    refine ⟨c, hc, ?_⟩
    split at h
    · simp at h
    · next hc0 =>
      refine ⟨by simpa using hc0, ?_⟩
      split at h
      · simp at h
      · next results hres =>
        have hresults :
            results = get_posts_query env.db pn category := by
          unfold get_posts at hres
          split at hres
          · simp at hres
          · split at hres
            · simp at hres
            · simp only [Except.ok.injEq] at hres
              exact hres.symm
        split at h
        · simp at h
        · next hgt =>
          simp only [Except.ok.injEq] at h
          exact ⟨hgt, by rw [← h, hresults]⟩

/-- C3: whenever the count succeeds with a nonzero value and the page fetch
succeeds, a requested page strictly greater than the computed page count
(count / 5 + 1) makes getPosts fail with the NotFound error. -/
theorem C3_page_beyond_last_not_found (env : DbEnv) (page : Int)
    (category : String) (c : Int) (hc : count env = .ok c) (h0 : c ≠ 0)
    (hfp : env.getPostsPoolFails = false)
    (hfq : env.getPostsQueryFails = false)
    (hpage : page > c / 5 + 1) :
    getPosts env page category =
      .error BlogError.NotFoundPosts.intoFieldError := by
  have hnn : 0 ≤ c := (count_ok_shape hc).2
  have hdiv : 0 ≤ c / 5 := Int.ediv_nonneg hnn (by norm_num)
  have hpne : page ≠ 0 := by omega
  have hfetch :
      get_posts env page category =
        .ok (get_posts_query env.db page category) := by
    simp [get_posts, hfp, hfq]
  simp [getPosts, hc, hpne, h0, hfetch, hpage]

/-- C3 witness: six open posts give a page count of 2; page 5 is rejected. -/
theorem C3_witness :
    getPosts (okEnv sixPostDb) 5 "" =
      .error BlogError.NotFoundPosts.intoFieldError :=
  C3_page_beyond_last_not_found (okEnv sixPostDb) 5 "" 6 (by decide)
    (by decide) (by decide) (by decide) (by decide)

/-- C5: in every successful getPosts result the next-page field is present:
it equals the page count when the current page equals the page count, and
the current page plus one otherwise. -/
theorem C5_next_always_present (env : DbEnv) (page : Int) (category : String)
    (P : Posts) (h : getPosts env page category = .ok P) :
    P.next = some (if P.current == P.page_size then P.page_size
                   else P.current + 1) := by
  obtain ⟨c, _, _, _, hP⟩ := getPosts_ok_shape h
  subst hP
  by_cases hcur : (if page = (0 : Int) then (1 : Int) else page) = c / 5 + 1 <;>
    simp [hcur]

/-- C5 witness: the sample database yields page count 1 and next page 1. -/
theorem C5_witness :
    resultW.next = some (if resultW.current == resultW.page_size
                         then resultW.page_size else resultW.current + 1) :=
  C5_next_always_present (okEnv sampleDb) 1 "" resultW (by decide)

/-- C9 counterexample: the not-found failure delivered by getPost on an
empty database is a bare message with an empty extensions list; it does not
carry the structured field code = NOT_FOUND. -/
theorem C9_counterexample :
    getPost (okEnv emptyDb) 1 =
      .error { message := "投稿が存在しません", extensions := [] } ∧
    ("code", "NOT_FOUND") ∉
      (FieldError.mk "投稿が存在しません" []).extensions := by decide

/-! Lemmas for the open-flag invariance of the single-post query. -/

theorem idsOfJoin_withOpen (cats : List CategoryRow) (id : Int)
    (pr : PostRow) (v : Int) :
    (((postCategories cats { pr with «open» := v }).filter
        (fun pc => pc.1.id == id)).map (fun pc => pc.1.id))
      = ((postCategories cats pr).filter (fun pc => pc.1.id == id)).map
          (fun pc => pc.1.id) := by
  induction cats with
  | nil => rfl
  | cons c cs ih =>
    simp only [postCategories, List.filter_cons] at ih ⊢
    by_cases h : (pr.category_id == c.id) = true
    · simp only [h, if_pos, List.map_cons, List.filter_cons]
      by_cases h2 : (pr.id == id) = true <;> simp [h2, ih]
    · simp only [h] at *
      simpa using ih

theorem joinFilterIds (posts : List PostRow) (cats : List CategoryRow)
    (f : PostRow → Int) (id : Int) :
    ((((posts.map (fun pr => { pr with «open» := f pr })).flatMap
        (postCategories cats)).filter (fun pc => pc.1.id == id)).map
      (fun pc => pc.1.id))
      = (((posts.flatMap (postCategories cats)).filter
          (fun pc => pc.1.id == id)).map (fun pc => pc.1.id)) := by
  induction posts with
  | nil => rfl
  | cons pr prs ih =>
    simp only [List.map_cons, List.flatMap_cons, List.filter_append,
      List.map_append, ih]
    congr 1
    exact idsOfJoin_withOpen cats id pr (f pr)

/-- C7: every post produced by the listing query has a truthy (nonzero) open
flag; the single-post query returns only rows matching the requested id, and
rewriting every open flag in the database leaves the ids it returns
unchanged, so it applies no filter on the open flag. -/
theorem C7_open_visibility (db : Database) (page id : Int) (category : String)
    (p : Post) (f : PostRow → Int)
    (hmem : p ∈ get_posts_query db page category) :
    p.«open» ≠ 0 ∧
    (∀ q ∈ get_post_query db id, q.id = id) ∧
    (get_post_query (withOpen db f) id).map Post.id =
      (get_post_query db id).map Post.id := by
  refine ⟨?_, ?_, ?_⟩
  · obtain ⟨pc, _, hf, hp⟩ := exists_of_mem_get_posts_query hmem
    have h1 : pc.1.«open» = 1 := by
      unfold listingFilter at hf
      simp at hf
      exact hf.1
    rw [hp]
    simp [rowToPostTruncated, h1]
  · intro q hq
    obtain ⟨pc, _, hid, hq'⟩ := exists_of_mem_get_post_query hq
    rw [hq']
    simpa [rowToPost] using hid
  · unfold get_post_query joinRows withOpen
    simp only [List.map_map]
    have hcomp :
        (Post.id ∘ rowToPost) = (fun pc : PostRow × CategoryRow => pc.1.id) :=
      rfl
    rw [hcomp]
    exact joinFilterIds db.posts db.categories f id

/-- C7 witness: the open sample post appears in the listing with a nonzero
flag; the lookup for the closed post (id 2, open flag 0) is id-driven and
stable under rewriting every open flag to 0. -/
theorem C7_witness :
    listedPost.«open» ≠ 0 ∧
    (∀ q ∈ get_post_query sampleDb 2, q.id = 2) ∧
    (get_post_query (withOpen sampleDb (fun _ => 0)) 2).map Post.id =
      (get_post_query sampleDb 2).map Post.id :=
  C7_open_visibility sampleDb 1 2 "" listedPost (fun _ => 0) (by decide)

/-- C8: a post delivered by getPost carries the full contents of its
database row, while every post inside a listing carries the row contents
through left200, so any contents present in a listing has length at most
200 characters. -/
theorem C8_contents_truncation (env : DbEnv) (id page : Int)
    (category : String) (q p : Post) (s : String)
    (hq : getPost env id = .ok q)
    (hp : p ∈ get_posts_query env.db page category)
    (hs : p.contents = some s) :
    (∃ pc, pc ∈ joinRows env.db ∧ pc.1.id = id ∧
      q.contents = pc.1.contents) ∧
    (∃ pc, pc ∈ joinRows env.db ∧ p.id = pc.1.id ∧
      p.contents = pc.1.contents.map left200) ∧
    s.length ≤ 200 := by
  refine ⟨?_, ?_, ?_⟩
  · have h1 := get_post_ok_mem (getPost_ok_iff.1 hq)
    obtain ⟨pc, hmem, hid, hq'⟩ := exists_of_mem_get_post_query h1
    exact ⟨pc, hmem, hid, by rw [hq']; rfl⟩
  · obtain ⟨pc, hmem, _, hp'⟩ := exists_of_mem_get_posts_query hp
    exact ⟨pc, hmem, by rw [hp']; rfl, by rw [hp']; rfl⟩
  · obtain ⟨pc, _, _, hp'⟩ := exists_of_mem_get_posts_query hp
    rw [hp'] at hs
    cases hcon : pc.1.contents with
    | none => simp [rowToPostTruncated, hcon] at hs
    | some t =>
      simp [rowToPostTruncated, hcon] at hs
      have hlen : (left200 t).length = (t.data.take 200).length := rfl
      rw [← hs, hlen, List.length_take]
      exact min_le_left _ _

/-- C8 witness: the sample post fetched singly and listed. -/
theorem C8_witness :
    (∃ pc, pc ∈ joinRows sampleDb ∧ pc.1.id = 1 ∧
      (rowToPost (samplePost, techCategory)).contents = pc.1.contents) ∧
    (∃ pc, pc ∈ joinRows sampleDb ∧ listedPost.id = pc.1.id ∧
      listedPost.contents = pc.1.contents.map left200) ∧
    String.length "body" ≤ 200 :=
  C8_contents_truncation (okEnv sampleDb) 1 1 ""
    (rowToPost (samplePost, techCategory)) listedPost "body"
    (by decide) (by decide) (by decide)

/-- Every failure delivered by the getPost resolver is a plain message. -/
theorem getPost_error_extensions {env : DbEnv} {id : Int} {fe : FieldError}
    (h : getPost env id = .error fe) : fe.extensions = [] := by
  unfold getPost at h
  split at h
  · simp at h
  · next err heq =>
    simp only [Except.error.injEq] at h
    rw [← h]
    cases err <;> rfl

/-- Every failure delivered by the getPosts resolver is a plain message. -/
theorem getPosts_error_extensions {env : DbEnv} {page : Int}
    {category : String} {fe : FieldError}
    (h : getPosts env page category = .error fe) : fe.extensions = [] := by
  simp only [getPosts] at h
  set pn : Int := if page == 0 then (1 : Int) else page with hpn
  split at h
  · next err heq =>
    simp only [Except.error.injEq] at h
    rw [← h]
    cases err <;> rfl
  · next c hc =>
    split at h
    · simp only [Except.error.injEq] at h
      rw [← h]
      rfl
    · split at h
      · next err heq =>
        simp only [Except.error.injEq] at h
        rw [← h]
        cases err <;> rfl
      · next results heq =>
        split at h
        · simp only [Except.error.injEq] at h
          rw [← h]
          rfl
        · simp at h

/-- C9 amended: the ErrorExtensions implementation does attach
code = NOT_FOUND to the not-found variants and reason = message to server
errors, but the getPost and getPosts resolvers never route their failures
through it: every failure they deliver carries an empty extensions list, so
callers receive only the message string. -/
theorem C9_extensions_shape (env : DbEnv) (id page : Int) (category : String)
    (fe : FieldError) (s : String)
    (h : getPost env id = .error fe ∨
         getPosts env page category = .error fe) :
    fe.extensions = [] ∧
    BlogError.NotFoundPost.extend.extensions = [("code", "NOT_FOUND")] ∧
    BlogError.NotFoundPosts.extend.extensions = [("code", "NOT_FOUND")] ∧
    (BlogError.ServerError s).extend.extensions = [("reason", s)] := by
  refine ⟨?_, rfl, rfl, rfl⟩
  rcases h with h | h
  · exact getPost_error_extensions h
  · exact getPosts_error_extensions h

/-- C9 witness: the concrete not-found failure of getPost on the empty
database carries no extensions, while extend would have attached them. -/
theorem C9_witness :
    (FieldError.mk "投稿が存在しません" []).extensions = [] ∧
    BlogError.NotFoundPost.extend.extensions = [("code", "NOT_FOUND")] ∧
    BlogError.NotFoundPosts.extend.extensions = [("code", "NOT_FOUND")] ∧
    (BlogError.ServerError "boom").extend.extensions = [("reason", "boom")] :=
  C9_extensions_shape (okEnv emptyDb) 1 1 "" ⟨"投稿が存在しません", []⟩
    "boom" (Or.inl (by decide))

/-- C10: every post delivered by getPost or inside a successful getPosts
listing has a present category (the inner join makes it some name), and a
post row whose category_id matches no category row produces no joined rows
at all, so it is unreachable through either operation. -/
theorem C10_category_always_present (env : DbEnv) (id page : Int)
    (category : String) (q : Post) (P : Posts) (p : Post) (pr : PostRow)
    (hq : getPost env id = .ok q)
    (hP : getPosts env page category = .ok P)
    (hp : p ∈ P.results)
    (hpr : ∀ cr ∈ env.db.categories, pr.category_id ≠ cr.id) :
    q.category ≠ none ∧ p.category ≠ none ∧
    postCategories env.db.categories pr = [] := by
  refine ⟨?_, ?_, ?_⟩
  · obtain ⟨pc, _, _, hq'⟩ :=
      exists_of_mem_get_post_query (get_post_ok_mem (getPost_ok_iff.1 hq))
    rw [hq']
    simp [rowToPost]
  · obtain ⟨c, _, _, _, hshape⟩ := getPosts_ok_shape hP
    subst hshape
    obtain ⟨pc, _, _, hp'⟩ := exists_of_mem_get_posts_query hp
    rw [hp']
    simp [rowToPostTruncated]
  · have hnil :
        env.db.categories.filter (fun c => pr.category_id == c.id) = [] := by
      rw [List.filter_eq_nil_iff]
      intro c hcmem
      simpa using hpr c hcmem
    unfold postCategories
    rw [hnil]
    rfl

/-- C10 witness: the sample post carries category tech both ways, and the
stray row with category_id 99 joins to nothing. -/
theorem C10_witness :
    (rowToPost (samplePost, techCategory)).category ≠ none ∧
    listedPost.category ≠ none ∧
    postCategories sampleDb.categories uncatPost = [] :=
  C10_category_always_present (okEnv sampleDb) 1 1 ""
    (rowToPost (samplePost, techCategory)) resultW listedPost uncatPost
    (by decide) (by decide) (by decide) (by decide)

end Blog
